import Mathlib

/-!
# Verification of the RAG-in-a-Box Python SDK sync protocol

A shallow embedding of `sdk/python/ragbox/client.py` and theorems about the
incremental synchronization protocol it implements: the local fingerprint
cache, the upsert decision procedure, batch upsert, delete/clear, the
reconciliation (`sync`) call and the `sync_status` response parsing.

Remote HTTP endpoints are external collaborators: each client operation is
parameterised by an oracle mapping the request the code builds to either a
`RemoteError` (a raised `requests` exception: transport failure or a
non-success status from `raise_for_status`) or the parsed success payload.
The embedding records, alongside each operation's result and the updated
cache, the list of remote requests the operation actually issued.
-/

namespace Ragbox

/-! ## SHA-256 over byte lists

`Document.content_hash` is `hashlib.sha256(content.encode('utf-8')).hexdigest()`.
We embed SHA-256 (FIPS 180-4) over `List Nat` bytes, words as `Nat` reduced
mod `2^32`, and the digest rendered as the 64-character lowercase hex string
that `hexdigest()` returns. -/

/-- `2^32`, the word modulus of SHA-256. -/
def M32 : Nat := 4294967296

/-- Right-rotation of a 32-bit word held in a `Nat`. -/
def rotr (n x : Nat) : Nat := ((x >>> n) ||| (x <<< (32 - n))) % M32

/-- Addition mod `2^32`. -/
def add32 (a b : Nat) : Nat := (a + b) % M32

/-- SHA-256 Σ₀. -/
def bigSigma0 (x : Nat) : Nat := (rotr 2 x) ^^^ (rotr 13 x) ^^^ (rotr 22 x)

/-- SHA-256 Σ₁. -/
def bigSigma1 (x : Nat) : Nat := (rotr 6 x) ^^^ (rotr 11 x) ^^^ (rotr 25 x)

/-- SHA-256 σ₀. -/
def smallSigma0 (x : Nat) : Nat := (rotr 7 x) ^^^ (rotr 18 x) ^^^ (x >>> 3)

/-- SHA-256 σ₁. -/
def smallSigma1 (x : Nat) : Nat := (rotr 17 x) ^^^ (rotr 19 x) ^^^ (x >>> 10)

/-- SHA-256 choice function. -/
def ch (x y z : Nat) : Nat := (x &&& y) ^^^ ((x ^^^ 4294967295) &&& z)

/-- SHA-256 majority function. -/
def maj (x y z : Nat) : Nat := (x &&& y) ^^^ (x &&& z) ^^^ (y &&& z)

/-- The 64 SHA-256 round constants (decimal form of FIPS 180-4 §4.2.2). -/
def K256 : List Nat :=
  [1116352408, 1899447441, 3049323471, 3921009573,
   961987163, 1508970993, 2453635748, 2870763221,
   3624381080, 310598401, 607225278, 1426881987,
   1925078388, 2162078206, 2614888103, 3248222580,
   3835390401, 4022224774, 264347078, 604807628,
   770255983, 1249150122, 1555081692, 1996064986,
   2554220882, 2821834349, 2952996808, 3210313671,
   3336571891, 3584528711, 113926993, 338241895,
   666307205, 773529912, 1294757372, 1396182291,
   1695183700, 1986661051, 2177026350, 2456956037,
   2730485921, 2820302411, 3259730800, 3345764771,
   3516065817, 3600352804, 4094571909, 275423344,
   430227734, 506948616, 659060556, 883997877,
   958139571, 1322822218, 1537002063, 1747873779,
   1955562222, 2024104815, 2227730452, 2361852424,
   2428436474, 2756734187, 3204031479, 3329325298]

/-- The eight working words `a..h` of the SHA-256 state. -/
structure Hash8 where
  a : Nat
  b : Nat
  c : Nat
  d : Nat
  e : Nat
  f : Nat
  g : Nat
  h : Nat
deriving DecidableEq

/-- The SHA-256 initial hash value (decimal form of FIPS 180-4 §5.3.3). -/
def H0 : Hash8 :=
  ⟨1779033703, 3144134277, 1013904242, 2773480762,
   1359893119, 2600822924, 528734635, 1541459225⟩

/-- Pad a byte message per FIPS 180-4: append `0x80`, zero bytes up to
56 mod 64, then the bit length as eight big-endian bytes. -/
def sha256Pad (msg : List Nat) : List Nat :=
  let len := msg.length
  let bitLen := len * 8
  let padZeros := (119 - len % 64) % 64
  msg ++ [0x80] ++ List.replicate padZeros 0 ++
    [bitLen / 2 ^ 56 % 256, bitLen / 2 ^ 48 % 256, bitLen / 2 ^ 40 % 256, bitLen / 2 ^ 32 % 256,
     bitLen / 2 ^ 24 % 256, bitLen / 2 ^ 16 % 256, bitLen / 2 ^ 8 % 256, bitLen % 256]

/-- Group bytes into big-endian 32-bit words. -/
def chunk4 : List Nat → List Nat
  | b0 :: b1 :: b2 :: b3 :: rest =>
    (b0 * 16777216 + b1 * 65536 + b2 * 256 + b3) :: chunk4 rest
  | _ => []

/-- Group words into 16-word blocks. -/
def chunk16 : List Nat → List (List Nat)
  | w0 :: w1 :: w2 :: w3 :: w4 :: w5 :: w6 :: w7 ::
    w8 :: w9 :: w10 :: w11 :: w12 :: w13 :: w14 :: w15 :: rest =>
    [w0, w1, w2, w3, w4, w5, w6, w7, w8, w9, w10, w11, w12, w13, w14, w15] :: chunk16 rest
  | _ => []

/-- Extend the message schedule: `acc` holds the words produced so far in
reverse order; run `n` more extension steps. -/
def wext : Nat → List Nat → List Nat
  | 0, acc => acc
  | n + 1, acc =>
    let nw := (smallSigma1 (acc.getD 1 0) + acc.getD 6 0 +
               smallSigma0 (acc.getD 14 0) + acc.getD 15 0) % M32
    wext n (nw :: acc)

/-- One SHA-256 compression round. -/
def sha256Round (st : Hash8) (k w : Nat) : Hash8 :=
  let t1 := (st.h + bigSigma1 st.e + ch st.e st.f st.g + k + w) % M32
  let t2 := (bigSigma0 st.a + maj st.a st.b st.c) % M32
  ⟨(t1 + t2) % M32, st.a, st.b, st.c, (st.d + t1) % M32, st.e, st.f, st.g⟩

/-- Run the compression rounds over paired round constants and schedule words. -/
def sha256Rounds (st : Hash8) : List (Nat × Nat) → Hash8
  | [] => st
  | (k, w) :: rest => sha256Rounds (sha256Round st k w) rest

/-- Process one 16-word block: extend the schedule to 64 words, compress,
and add the result into the running state. -/
def sha256Block (st : Hash8) (block : List Nat) : Hash8 :=
  let w := (wext 48 block.reverse).reverse
  let f := sha256Rounds st (K256.zip w)
  ⟨add32 st.a f.a, add32 st.b f.b, add32 st.c f.c, add32 st.d f.d,
   add32 st.e f.e, add32 st.f f.f, add32 st.g f.g, add32 st.h f.h⟩

/-- Fold the block compression over all blocks. -/
def sha256Blocks (st : Hash8) : List (List Nat) → Hash8
  | [] => st
  | b :: bs => sha256Blocks (sha256Block st b) bs

/-- SHA-256 digest of a byte message, as the eight 32-bit hash words. -/
def sha256Words (msg : List Nat) : Hash8 :=
  sha256Blocks H0 (chunk16 (chunk4 (sha256Pad msg)))

/-- Lowercase hexadecimal digit for `n < 16`, as produced by `hexdigest()`. -/
def hexDigit (n : Nat) : Char :=
  if n < 10 then Char.ofNat (48 + n) else Char.ofNat (87 + n)

/-- Render one 32-bit word as eight lowercase hex characters. -/
def wordToHex (w : Nat) : List Char :=
  [hexDigit (w / 16 ^ 7 % 16), hexDigit (w / 16 ^ 6 % 16),
   hexDigit (w / 16 ^ 5 % 16), hexDigit (w / 16 ^ 4 % 16),
   hexDigit (w / 16 ^ 3 % 16), hexDigit (w / 16 ^ 2 % 16),
   hexDigit (w / 16 % 16), hexDigit (w % 16)]

/-- `hashlib.sha256(msg).hexdigest()`: the 64-character lowercase hex digest. -/
def sha256Hex (msg : List Nat) : String :=
  let d := sha256Words msg
  ⟨wordToHex d.a ++ wordToHex d.b ++ wordToHex d.c ++ wordToHex d.d ++
   wordToHex d.e ++ wordToHex d.f ++ wordToHex d.g ++ wordToHex d.h⟩

/-- UTF-8 encoding of one Unicode scalar value, as `str.encode('utf-8')`
produces per character. -/
def utf8EncodeChar (c : Char) : List Nat :=
  let n := c.toNat
  if n < 128 then [n]
  else if n < 2048 then [192 + n / 64, 128 + n % 64]
  else if n < 65536 then [224 + n / 4096, 128 + n / 64 % 64, 128 + n % 64]
  else [240 + n / 262144, 128 + n / 4096 % 64, 128 + n / 64 % 64, 128 + n % 64]

/-- `content.encode('utf-8')`: the UTF-8 bytes of a string. -/
def utf8Encode (s : String) : List Nat :=
  (s.data.map utf8EncodeChar).flatten

/-- `hashlib.sha256(s.encode('utf-8')).hexdigest()`. -/
def sha256HexOfString (s : String) : String :=
  sha256Hex (utf8Encode s)

/-! ## Data model (`client.py` dataclasses) -/

/-- `Document`: a document to be ingested. `metadata` is a `Dict[str, str]`,
embedded as an insertion-ordered association list. -/
structure Document where
  id : String
  content : String
  metadata : List (String × String) := []
deriving DecidableEq

/-- `Document.content_hash`: SHA-256 hex digest of the content's UTF-8
bytes, recomputed on every call (it is a method, not a stored field). -/
def Document.content_hash (doc : Document) : String :=
  sha256HexOfString doc.content

/-- `UpsertResult`: result of one upsert attempt. -/
structure UpsertResult where
  document_id : String
  chunks : Nat
  action : String
  message : String
deriving DecidableEq

/-- A raised `requests` exception: transport failure, or a non-success
HTTP status surfaced by `raise_for_status`. -/
inductive RemoteError where
  | transport (msg : String)
  | status (code : Nat) (body : String)
deriving DecidableEq

/-! ## The local sync cache

`self._pushed_docs : Dict[str, str]` maps document id to the last-pushed
content hash. Embedded as an insertion-ordered association list, matching
Python dict semantics for the operations the client performs. -/

/-- The local cache `_pushed_docs`. -/
abbrev Cache := List (String × String)

namespace Cache

/-- Dictionary lookup: `_pushed_docs.get(k)` / `k in _pushed_docs`. -/
def get : Cache → String → Option String
  | [], _ => none
  | (k, v) :: rest, key => if k = key then some v else get rest key

/-- Dictionary assignment `_pushed_docs[k] = v`: overwrite in place if the
key is present, else append (Python dicts keep insertion order). -/
def set : Cache → String → String → Cache
  | [], key, val => [(key, val)]
  | (k, v) :: rest, key, val =>
    if k = key then (key, val) :: rest else (k, v) :: set rest key val

/-- `_pushed_docs.pop(k, None)`: drop the entry for `k`, if any. -/
def pop (c : Cache) (key : String) : Cache :=
  c.filter (fun p => p.1 ≠ key)

/-- The dict comprehension in `sync`:
`{k: v for k, v in _pushed_docs.items() if k in keep_set}`. -/
def retain (c : Cache) (keep : List String) : Cache :=
  c.filter (fun p => keep.contains p.1)

end Cache

/-! ## Requests the client builds -/

/-- The `PUT /api/v1/documents/{id}` request `upsert` issues: the path id
plus the JSON body. `metadata` is omitted (`none`) when the document's
metadata dict is empty, because the code guards it with `if doc.metadata:`. -/
structure UpsertRequest where
  docId : String
  content : String
  contentHash : String
  metadata : Option (List (String × String))
deriving DecidableEq

/-- Build the upsert request exactly as `upsert` does. -/
def upsertRequest (doc : Document) : UpsertRequest :=
  { docId := doc.id
    content := doc.content
    contentHash := doc.content_hash
    metadata := if doc.metadata.isEmpty then none else some doc.metadata }

/-- The parsed JSON success payload of the upsert endpoint. -/
structure UpsertResponse where
  documentId : String
  chunks : Nat
  action : String
  message : String
deriving DecidableEq

/-- The body of the `POST /api/v1/sync` request. `none` embeds
`data = None` (no JSON body at all — the `keepDocumentIds` field is not
sent); `some ks` embeds `{"keepDocumentIds": list(keep_ids)}`. -/
structure SyncRequest where
  keepDocumentIds : Option (List String)
deriving DecidableEq

/-- The parsed JSON success payload of the sync endpoint (the example
reads `prunedCount` from it with a default of 0). -/
structure SyncResponse where
  prunedCount : Option Nat
deriving DecidableEq

/-- View an `Except` as a `Sum`, to transport decidable equality. -/
def exceptToSum : Except ε α → ε ⊕ α
  | .error e => .inl e
  | .ok a => .inr a

instance {ε α : Type} [DecidableEq ε] [DecidableEq α] : DecidableEq (Except ε α) :=
  fun a b =>
    decidable_of_iff (exceptToSum a = exceptToSum b)
      (by cases a <;> cases b <;> simp [exceptToSum])

/-! ## Client operations

Each operation takes the relevant remote endpoint as an oracle from the
request the code builds to `Except RemoteError` of the parsed success
payload, plus the cache state `self._pushed_docs`, and returns the
Python-level outcome (a raised exception is `Except.error`), the cache
after the call, and the remote requests actually issued. -/

/-- Outcome of `upsert`: result or raised error, cache afterwards, and the
remote upsert requests issued (empty on the purely local branch). -/
structure UpsertStep where
  res : Except RemoteError UpsertResult
  cache : Cache
  calls : List UpsertRequest
deriving DecidableEq

/-- `RagBoxClient.upsert`. Computes the content hash; if the local cache
holds the same hash for `doc.id`, returns the `unchanged` outcome with no
remote call; otherwise issues the PUT request and, on success, records the
hash in the cache and returns the server-reported outcome verbatim. On a
raised error the cache is left as it was. -/
def upsert (oracle : UpsertRequest → Except RemoteError UpsertResponse)
    (cache : Cache) (doc : Document) : UpsertStep :=
  let contentHash := doc.content_hash
  if cache.get doc.id = some contentHash then
    { res := .ok { document_id := doc.id, chunks := 0, action := "unchanged",
                   message := "Skipped (unchanged in local cache)" }
      cache := cache
      calls := [] }
  else
    let req := upsertRequest doc
    match oracle req with
    | .error e => { res := .error e, cache := cache, calls := [req] }
    | .ok resp =>
      { res := .ok { document_id := resp.documentId, chunks := resp.chunks,
                     action := resp.action, message := resp.message }
        cache := cache.set doc.id contentHash
        calls := [req] }

/-- Outcome of `upsert_batch`: the returned list (or the exception that
escaped), the cache afterwards, and all remote requests issued in order. -/
structure BatchStep where
  res : Except RemoteError (List UpsertResult)
  cache : Cache
  calls : List UpsertRequest
deriving DecidableEq

/-- `RagBoxClient.upsert_batch`: the list comprehension
`[self.upsert(doc) for doc in docs]`. An exception raised by one
`upsert` propagates immediately: earlier cache updates persist, the
partial results are discarded, and later documents are not attempted. -/
def upsert_batch (oracle : UpsertRequest → Except RemoteError UpsertResponse)
    (cache : Cache) : List Document → BatchStep
  | [] => { res := .ok [], cache := cache, calls := [] }
  | doc :: docs =>
    let s := upsert oracle cache doc
    match s.res with
    | .error e => { res := .error e, cache := s.cache, calls := s.calls }
    | .ok r =>
      let rest := upsert_batch oracle s.cache docs
      match rest.res with
      | .error e => { res := .error e, cache := rest.cache, calls := s.calls ++ rest.calls }
      | .ok rs => { res := .ok (r :: rs), cache := rest.cache, calls := s.calls ++ rest.calls }

/-- Outcome of `delete` / `clear_all`. -/
structure DeleteStep where
  res : Except RemoteError Unit
  cache : Cache
deriving DecidableEq

/-- `RagBoxClient.delete`: DELETE the document remotely, then (only after
the call returned without raising) `_pushed_docs.pop(document_id, None)`. -/
def delete (oracle : String → Except RemoteError Unit)
    (cache : Cache) (document_id : String) : DeleteStep :=
  match oracle document_id with
  | .error e => { res := .error e, cache := cache }
  | .ok _ => { res := .ok (), cache := cache.pop document_id }

/-- `RagBoxClient.clear_all`: DELETE all documents remotely, then (only
after the call returned without raising) `_pushed_docs.clear()`. -/
def clear_all (oracle : Unit → Except RemoteError Unit)
    (cache : Cache) : DeleteStep :=
  match oracle () with
  | .error e => { res := .error e, cache := cache }
  | .ok _ => { res := .ok (), cache := [] }

/-- Build the sync request body exactly as `sync` does:
`data = None`, overwritten with `{"keepDocumentIds": list(keep_ids)}`
only when `keep_ids is not None`. -/
def syncRequest (keep_ids : Option (List String)) : SyncRequest :=
  { keepDocumentIds := keep_ids }

/-- Outcome of `sync`: the response (or raised error), the cache
afterwards, and the request body that was sent. -/
structure SyncStep where
  res : Except RemoteError SyncResponse
  cache : Cache
  req : SyncRequest
deriving DecidableEq

/-- `RagBoxClient.sync`: POST the keep-set (or no body when `keep_ids` is
omitted); on success, when `keep_ids` was provided, keep only the cached
entries whose id is in the keep-set. On a raised error the cache is left
as it was. -/
def sync (oracle : SyncRequest → Except RemoteError SyncResponse)
    (cache : Cache) (keep_ids : Option (List String)) : SyncStep :=
  let req := syncRequest keep_ids
  match oracle req with
  | .error e => { res := .error e, cache := cache, req := req }
  | .ok resp =>
    match keep_ids with
    | none => { res := .ok resp, cache := cache, req := req }
    | some ks => { res := .ok resp, cache := cache.retain ks, req := req }

/-! ## Query / search request construction (`query`, `search`)

Both methods guard the optional fields with Python truthiness
(`if top_k:` / `if collection:`), not with `is not None`. -/

/-- Python truthiness of an `Optional[int]`: `None` and `0` are falsy. -/
def pyTruthyInt : Option Int → Bool
  | none => false
  | some n => n != 0

/-- Python truthiness of an `Optional[str]`: `None` and `""` are falsy. -/
def pyTruthyStr : Option String → Bool
  | none => false
  | some s => s != ""

/-- The JSON body of `POST /api/v1/query`: `topK` / `collection` are
present only when the corresponding argument is truthy. -/
structure QueryRequest where
  question : String
  topK : Option Int
  collection : Option String
deriving DecidableEq

/-- Build the query request exactly as `query` does. -/
def queryRequest (question : String) (top_k : Option Int)
    (collection : Option String) : QueryRequest :=
  { question := question
    topK := if pyTruthyInt top_k then top_k else none
    collection := if pyTruthyStr collection then collection else none }

/-- The JSON body of `POST /api/v1/search`, built the same way. -/
structure SearchRequest where
  query : String
  topK : Option Int
  collection : Option String
deriving DecidableEq

/-- Build the search request exactly as `search` does. -/
def searchRequest (q : String) (top_k : Option Int)
    (collection : Option String) : SearchRequest :=
  { query := q
    topK := if pyTruthyInt top_k then top_k else none
    collection := if pyTruthyStr collection then collection else none }

/-! ## `sync_status` response parsing -/

/-- The JSON payload of `GET /api/v1/sync/status`. `lastSyncTime = none`
embeds both an absent field and a JSON `null` (`result.get` yields `None`
for either); `pendingDeletes = none` embeds an absent field. The code
indexes `documentCount` and `chunkCount` directly, so they are required. -/
structure SyncStatusResponse where
  lastSyncTime : Option String
  documentCount : Nat
  chunkCount : Nat
  pendingDeletes : Option Nat
deriving DecidableEq

/-- The `SyncStatus` dataclass. `last_sync_time` holds the normalized
ISO-8601 string the code hands to `datetime.fromisoformat` (the stdlib
datetime parser is an external collaborator, like the HTTP transport):
the wire value with every `"Z"` replaced by `"+00:00"`. -/
structure SyncStatus where
  last_sync_time : Option String
  document_count : Nat
  chunk_count : Nat
  pending_deletes : Nat
deriving DecidableEq

/-- Python `s.replace(pat, rep)` for a single-character pattern:
replace every occurrence, left to right. -/
def pyReplaceChar (pat : Char) (rep : List Char) : List Char → List Char
  | [] => []
  | c :: rest =>
    if c = pat then rep ++ pyReplaceChar pat rep rest
    else c :: pyReplaceChar pat rep rest

/-- `lastSyncTime.replace("Z", "+00:00")` as the code performs it. -/
def zToOffset (s : String) : String :=
  ⟨pyReplaceChar 'Z' "+00:00".data s.data⟩

/-- `RagBoxClient.sync_status` on a parsed response: `last_sync_time` is
populated only when `result.get("lastSyncTime")` is truthy (present,
non-null and non-empty), after the `"Z" → "+00:00"` replacement;
`pending_deletes` defaults to 0 when the field is absent. -/
def sync_status_of (result : SyncStatusResponse) : SyncStatus :=
  let last_sync : Option String :=
    match result.lastSyncTime with
    | none => none
    | some s => if s = "" then none else some (zToOffset s)
  { last_sync_time := last_sync
    document_count := result.documentCount
    chunk_count := result.chunkCount
    pending_deletes := result.pendingDeletes.getD 0 }

/-- `RagBoxClient.sync_status`: issue the GET and parse the payload; a
raised error propagates and nothing else happens. -/
def sync_status (oracle : Unit → Except RemoteError SyncStatusResponse) :
    Except RemoteError SyncStatus :=
  match oracle () with
  | .error e => .error e
  | .ok result => .ok (sync_status_of result)

/-! ## Concrete fixtures used by witnesses and counterexamples -/

/-- A server that accepts every upsert and reports `created`. -/
def okUpsertOracle : UpsertRequest → Except RemoteError UpsertResponse :=
  fun req => .ok { documentId := req.docId, chunks := 1, action := "created",
                   message := "indexed" }

/-- A server whose upsert endpoint always fails at transport level. -/
def failUpsertOracle : UpsertRequest → Except RemoteError UpsertResponse :=
  fun _ => .error (.transport "connection refused")

/-- A server that rejects exactly the document with id `"d2"`. -/
def d2FailOracle : UpsertRequest → Except RemoteError UpsertResponse :=
  fun req =>
    if req.docId = "d2" then .error (.status 500 "boom")
    else .ok { documentId := req.docId, chunks := 1, action := "created",
               message := "indexed" }

/-- A sync endpoint that reports two pruned documents. -/
def okSyncOracle : SyncRequest → Except RemoteError SyncResponse :=
  fun _ => .ok { prunedCount := some 2 }

/-- A sync endpoint that always fails. -/
def failSyncOracle : SyncRequest → Except RemoteError SyncResponse :=
  fun _ => .error (.transport "connection refused")

/-- A delete endpoint that accepts every id. -/
def okDeleteOracle : String → Except RemoteError Unit := fun _ => .ok ()

/-- A delete endpoint that always returns a non-success status. -/
def failDeleteOracle : String → Except RemoteError Unit :=
  fun _ => .error (.status 503 "unavailable")

/-- A delete-all endpoint that always fails. -/
def failClearOracle : Unit → Except RemoteError Unit :=
  fun _ => .error (.transport "timeout")

/-- Fixture document `d1`. -/
def docA : Document := { id := "d1", content := "one" }

/-- Fixture document `d2`. -/
def docB : Document := { id := "d2", content := "two" }

/-- Fixture document `d3`. -/
def docC : Document := { id := "d3", content := "three" }

/-- A fixture cache holding fingerprints for ids `A`, `B`, `C`, `D`. -/
def cacheABCD : Cache := [("A", "ha"), ("B", "hb"), ("C", "hc"), ("D", "hd")]

/-! ## Cache lemmas -/

/-- After `_pushed_docs[k] = v`, looking up `k` yields `v`. -/
theorem Cache.get_set_self (c : Cache) (k v : String) : (c.set k v).get k = some v := by
  induction c with
  | nil => simp [Cache.set, Cache.get]
  | cons p rest ih =>
    obtain ⟨k', v'⟩ := p
    by_cases h : k' = k
    · simp [Cache.set, Cache.get, h]
    · simp [Cache.set, Cache.get, h, ih]

/-- After `_pushed_docs.pop(k, None)`, looking up `k` yields nothing. -/
theorem Cache.get_pop_self (c : Cache) (k : String) : (c.pop k).get k = none := by
  induction c with
  | nil => rfl
  | cons p rest ih =>
    obtain ⟨k', v'⟩ := p
    by_cases h : k' = k
    · simpa [Cache.pop, List.filter_cons, h] using ih
    · simpa [Cache.pop, Cache.get, List.filter_cons, h] using ih

/-- Lookup in the retained cache: exactly the prior entries whose key is
in the keep list survive, with their prior values. -/
theorem Cache.get_retain (c : Cache) (ks : List String) (x : String) :
    (c.retain ks).get x = if ks.contains x then c.get x else none := by
  induction c with
  | nil => simp [Cache.retain, Cache.get]
  | cons p rest ih =>
    obtain ⟨k', v'⟩ := p
    by_cases hx : k' = x
    · subst hx
      by_cases hc : k' ∈ ks
      · simp [Cache.retain, Cache.get, List.filter_cons, hc]
      · simpa [Cache.retain, Cache.get, List.filter_cons, hc] using ih
    · by_cases hc : k' ∈ ks
      · simpa [Cache.retain, Cache.get, List.filter_cons, hc, hx] using ih
      · simpa [Cache.retain, Cache.get, List.filter_cons, hc, hx] using ih

/-- After an `upsert` that returned without raising, the cache maps the
document's id to its current content hash (whether the call was answered
locally or remotely). -/
theorem upsert_ok_cache_get
    (oracle : UpsertRequest → Except RemoteError UpsertResponse)
    (cache : Cache) (doc : Document) (u : UpsertResult)
    (h : (upsert oracle cache doc).res = .ok u) :
    ((upsert oracle cache doc).cache).get doc.id = some doc.content_hash := by
  by_cases hhit : cache.get doc.id = some doc.content_hash
  · simp [upsert, hhit]
  · cases ho : oracle (upsertRequest doc) with
    | error e => rw [upsert] at h; simp [hhit, ho] at h
    | ok resp => simp [upsert, hhit, ho, Cache.get_set_self]

/-- The request body `sync` sends is `syncRequest keep_ids`, whatever the
call's outcome. -/
theorem sync_req_eq (oracle : SyncRequest → Except RemoteError SyncResponse)
    (cache : Cache) (keep_ids : Option (List String)) :
    (sync oracle cache keep_ids).req = syncRequest keep_ids := by
  simp only [sync]
  cases oracle (syncRequest keep_ids) with
  | error e => rfl
  | ok resp => cases keep_ids <;> rfl

/-- With `keep_ids` omitted, `sync` never touches the cache. -/
theorem sync_none_cache (oracle : SyncRequest → Except RemoteError SyncResponse)
    (cache : Cache) : (sync oracle cache none).cache = cache := by
  simp only [sync]
  cases oracle (syncRequest none) with
  | error e => rfl
  | ok resp => rfl

/-! ## Claim theorems -/

/-- C2: if the local cache holds the document's id with a fingerprint equal
to the fingerprint of its current content, `upsert` returns the `unchanged`
outcome with 0 chunks, issues no remote call and leaves the cache as it
was; in particular, after a first `upsert` of a document returns without
raising, a second `upsert` of the same document yields `unchanged` and
issues zero remote calls. -/
theorem upsert_cache_hit_unchanged
    (oracle : UpsertRequest → Except RemoteError UpsertResponse)
    (cache : Cache) (doc : Document) :
    (cache.get doc.id = some doc.content_hash →
      upsert oracle cache doc =
        { res := .ok { document_id := doc.id, chunks := 0, action := "unchanged",
                       message := "Skipped (unchanged in local cache)" }
          cache := cache
          calls := [] }) ∧
    (∀ u : UpsertResult, (upsert oracle cache doc).res = .ok u →
      (upsert oracle (upsert oracle cache doc).cache doc).res =
          .ok { document_id := doc.id, chunks := 0, action := "unchanged",
                message := "Skipped (unchanged in local cache)" } ∧
      (upsert oracle (upsert oracle cache doc).cache doc).calls = []) := by
  constructor
  · intro h
    simp [upsert, h]
  · intro u hu
    have hg := upsert_ok_cache_get oracle cache doc u hu
    obtain ⟨c1, hc1⟩ : ∃ c, (upsert oracle cache doc).cache = c := ⟨_, rfl⟩
    rw [hc1] at hg ⊢
    exact ⟨by simp [upsert, hg], by simp [upsert, hg]⟩

/-- Witness for C2 at a concrete oracle and document: the second of two
back-to-back upserts of `docA` is the local `unchanged` outcome with no
remote call. -/
theorem upsert_cache_hit_unchanged_witness :
    (upsert okUpsertOracle (upsert okUpsertOracle [] docA).cache docA).res =
        .ok { document_id := docA.id, chunks := 0, action := "unchanged",
              message := "Skipped (unchanged in local cache)" } ∧
    (upsert okUpsertOracle (upsert okUpsertOracle [] docA).cache docA).calls = [] :=
  (upsert_cache_hit_unchanged okUpsertOracle [] docA).2
    { document_id := "d1", chunks := 1, action := "created", message := "indexed" }
    (by decide)

/-- C3: for every cache state and every remote operation (`upsert`, `sync`,
`delete`, `clear_all`), a raised remote failure (transport error or
non-success status) leaves the local cache identical to what it was, and
the failure propagates to the caller. -/
theorem remote_failure_preserves_cache :
    (∀ (oracle : UpsertRequest → Except RemoteError UpsertResponse)
       (cache : Cache) (doc : Document) (e : RemoteError),
        (upsert oracle cache doc).res = .error e →
        (upsert oracle cache doc).cache = cache) ∧
    (∀ (oracle : SyncRequest → Except RemoteError SyncResponse)
       (cache : Cache) (keep_ids : Option (List String)) (e : RemoteError),
        (sync oracle cache keep_ids).res = .error e →
        (sync oracle cache keep_ids).cache = cache) ∧
    (∀ (oracle : String → Except RemoteError Unit)
       (cache : Cache) (document_id : String) (e : RemoteError),
        (delete oracle cache document_id).res = .error e →
        (delete oracle cache document_id).cache = cache) ∧
    (∀ (oracle : Unit → Except RemoteError Unit) (cache : Cache) (e : RemoteError),
        (clear_all oracle cache).res = .error e →
        (clear_all oracle cache).cache = cache) ∧
    (∀ (oracle : UpsertRequest → Except RemoteError UpsertResponse)
       (cache : Cache) (doc : Document) (e : RemoteError),
        oracle (upsertRequest doc) = .error e →
        cache.get doc.id ≠ some doc.content_hash →
        (upsert oracle cache doc).res = .error e) ∧
    (∀ (oracle : SyncRequest → Except RemoteError SyncResponse)
       (cache : Cache) (keep_ids : Option (List String)) (e : RemoteError),
        oracle (syncRequest keep_ids) = .error e →
        (sync oracle cache keep_ids).res = .error e) ∧
    (∀ (oracle : String → Except RemoteError Unit)
       (cache : Cache) (document_id : String) (e : RemoteError),
        oracle document_id = .error e →
        (delete oracle cache document_id).res = .error e) ∧
    (∀ (oracle : Unit → Except RemoteError Unit) (cache : Cache) (e : RemoteError),
        oracle () = .error e →
        (clear_all oracle cache).res = .error e) := by
  refine ⟨?_, ?_, ?_, ?_, ?_, ?_, ?_, ?_⟩
  · intro oracle cache doc e h
    by_cases hhit : cache.get doc.id = some doc.content_hash
    · simp [upsert, hhit]
    · cases ho : oracle (upsertRequest doc) with
      | error e' => simp [upsert, hhit, ho]
      | ok resp => rw [upsert] at h; simp [hhit, ho] at h
  · intro oracle cache keep_ids e h
    cases ho : oracle (syncRequest keep_ids) with
    | error e' => cases keep_ids <;> simp [sync, ho]
    | ok resp => rw [sync] at h; cases keep_ids <;> simp [ho] at h
  · intro oracle cache document_id e h
    cases ho : oracle document_id with
    | error e' => simp [delete, ho]
    | ok u => rw [delete] at h; simp [ho] at h
  · intro oracle cache e h
    cases ho : oracle () with
    | error e' => simp [clear_all, ho]
    | ok u => rw [clear_all] at h; simp [ho] at h
  · intro oracle cache doc e ho hhit
    simp [upsert, hhit, ho]
  · intro oracle cache keep_ids e ho
    cases keep_ids <;> simp [sync, ho]
  · intro oracle cache document_id e ho
    simp [delete, ho]
  · intro oracle cache e ho
    simp [clear_all, ho]

/-- Witness for C3: concrete failing calls on each operation leave a
concrete cache exactly as it was. -/
theorem remote_failure_preserves_cache_witness :
    (upsert failUpsertOracle [] docA).cache = [] ∧
    (sync failSyncOracle cacheABCD (some ["B", "D"])).cache = cacheABCD ∧
    (delete failDeleteOracle cacheABCD "A").cache = cacheABCD ∧
    (clear_all failClearOracle cacheABCD).cache = cacheABCD :=
  ⟨remote_failure_preserves_cache.1 failUpsertOracle [] docA
      (.transport "connection refused") (by decide),
   remote_failure_preserves_cache.2.1 failSyncOracle cacheABCD (some ["B", "D"])
      (.transport "connection refused") (by decide),
   remote_failure_preserves_cache.2.2.1 failDeleteOracle cacheABCD "A"
      (.status 503 "unavailable") (by decide),
   remote_failure_preserves_cache.2.2.2.1 failClearOracle cacheABCD
      (.transport "timeout") (by decide)⟩

/-- C4: after a `sync` with keep-set `ks` that returned without raising,
the cache holds exactly the prior entries whose id is in `ks`, each with
its prior fingerprint; ids outside `ks` are gone and nothing is added. -/
theorem sync_prunes_cache_to_keep_set
    (oracle : SyncRequest → Except RemoteError SyncResponse)
    (cache : Cache) (ks : List String) (resp : SyncResponse)
    (h : (sync oracle cache (some ks)).res = .ok resp) (x : String) :
    ((sync oracle cache (some ks)).cache).get x =
      if ks.contains x then cache.get x else none := by
  cases ho : oracle (syncRequest (some ks)) with
  | error e => rw [sync] at h; simp [ho] at h
  | ok r =>
    have hc : (sync oracle cache (some ks)).cache = cache.retain ks := by
      simp [sync, ho]
    rw [hc, Cache.get_retain]

/-- Witness for C4: syncing `{A,B,C,D}` with keep-set `{B,D}` leaves
exactly the `B` and `D` entries, at their prior fingerprints. -/
theorem sync_prunes_cache_to_keep_set_witness :
    ((sync okSyncOracle cacheABCD (some ["B", "D"])).cache).get "A" = none ∧
    ((sync okSyncOracle cacheABCD (some ["B", "D"])).cache).get "B" = some "hb" ∧
    ((sync okSyncOracle cacheABCD (some ["B", "D"])).cache).get "C" = none ∧
    ((sync okSyncOracle cacheABCD (some ["B", "D"])).cache).get "D" = some "hd" ∧
    ((sync okSyncOracle cacheABCD (some ["B", "D"])).cache).get "E" = none := by
  have hA := sync_prunes_cache_to_keep_set okSyncOracle cacheABCD ["B", "D"]
    { prunedCount := some 2 } (by decide) "A"
  have hB := sync_prunes_cache_to_keep_set okSyncOracle cacheABCD ["B", "D"]
    { prunedCount := some 2 } (by decide) "B"
  have hC := sync_prunes_cache_to_keep_set okSyncOracle cacheABCD ["B", "D"]
    { prunedCount := some 2 } (by decide) "C"
  have hD := sync_prunes_cache_to_keep_set okSyncOracle cacheABCD ["B", "D"]
    { prunedCount := some 2 } (by decide) "D"
  have hE := sync_prunes_cache_to_keep_set okSyncOracle cacheABCD ["B", "D"]
    { prunedCount := some 2 } (by decide) "E"
  refine ⟨?_, ?_, ?_, ?_, ?_⟩
  · rw [hA]; decide
  · rw [hB]; decide
  · rw [hC]; decide
  · rw [hD]; decide
  · rw [hE]; decide

/-- C5: `sync` distinguishes an omitted keep-set from an empty one. With
`keep_ids` omitted the request body is `None` (no `keepDocumentIds`
field) and the cache is untouched whatever the outcome; with an empty
list the body carries an empty `keepDocumentIds` and, when the call
returns without raising, the cache is emptied. -/
theorem sync_omitted_vs_empty
    (oracle : SyncRequest → Except RemoteError SyncResponse) (cache : Cache) :
    (sync oracle cache none).req = { keepDocumentIds := none } ∧
    (sync oracle cache none).cache = cache ∧
    (sync oracle cache (some [])).req = { keepDocumentIds := some [] } ∧
    (∀ resp : SyncResponse, (sync oracle cache (some [])).res = .ok resp →
      (sync oracle cache (some [])).cache = []) := by
  refine ⟨?_, ?_, ?_, ?_⟩
  · rw [sync_req_eq]; rfl
  · exact sync_none_cache oracle cache
  · rw [sync_req_eq]; rfl
  · intro resp h
    cases ho : oracle (syncRequest (some [])) with
    | error e => rw [sync] at h; simp [ho] at h
    | ok r => simp [sync, ho, Cache.retain]

/-- Witness for C5: concrete omitted vs empty syncs on `cacheABCD`. -/
theorem sync_omitted_vs_empty_witness :
    (sync okSyncOracle cacheABCD none).req = { keepDocumentIds := none } ∧
    (sync okSyncOracle cacheABCD none).cache = cacheABCD ∧
    (sync okSyncOracle cacheABCD (some [])).req = { keepDocumentIds := some [] } ∧
    (sync okSyncOracle cacheABCD (some [])).cache = [] :=
  ⟨(sync_omitted_vs_empty okSyncOracle cacheABCD).1,
   (sync_omitted_vs_empty okSyncOracle cacheABCD).2.1,
   (sync_omitted_vs_empty okSyncOracle cacheABCD).2.2.1,
   (sync_omitted_vs_empty okSyncOracle cacheABCD).2.2.2
     { prunedCount := some 2 } (by decide)⟩

/-- C6: the fingerprint depends only on the content, so after an `upsert`
of `d1` that returned without raising, upserting any `d2` with the same id
and content — in particular one with different metadata — yields the local
`unchanged` outcome with zero remote calls. -/
theorem metadata_not_in_change_detection
    (oracle : UpsertRequest → Except RemoteError UpsertResponse)
    (cache : Cache) (d1 d2 : Document) (u : UpsertResult)
    (hid : d2.id = d1.id) (hcon : d2.content = d1.content)
    (hu : (upsert oracle cache d1).res = .ok u) :
    d2.content_hash = d1.content_hash ∧
    (upsert oracle (upsert oracle cache d1).cache d2).res =
      .ok { document_id := d2.id, chunks := 0, action := "unchanged",
            message := "Skipped (unchanged in local cache)" } ∧
    (upsert oracle (upsert oracle cache d1).cache d2).calls = [] := by
  have hh : d2.content_hash = d1.content_hash := by
    unfold Document.content_hash
    rw [hcon]
  have hg := upsert_ok_cache_get oracle cache d1 u hu
  obtain ⟨c1, hc1⟩ : ∃ c, (upsert oracle cache d1).cache = c := ⟨_, rfl⟩
  rw [hc1] at hg ⊢
  have hg2 : c1.get d2.id = some d2.content_hash := by rw [hid, hh]; exact hg
  exact ⟨hh, by simp [upsert, hg2], by simp [upsert, hg2]⟩

/-- Witness for C6: after upserting `docA`, upserting a document with the
same id and content but different metadata is `unchanged`, no remote call. -/
theorem metadata_not_in_change_detection_witness :
    ({ id := "d1", content := "one",
       metadata := [("lang", "en")] } : Document).content_hash = docA.content_hash ∧
    (upsert okUpsertOracle (upsert okUpsertOracle [] docA).cache
        { id := "d1", content := "one", metadata := [("lang", "en")] }).res =
      .ok { document_id := "d1", chunks := 0, action := "unchanged",
            message := "Skipped (unchanged in local cache)" } ∧
    (upsert okUpsertOracle (upsert okUpsertOracle [] docA).cache
        { id := "d1", content := "one", metadata := [("lang", "en")] }).calls = [] :=
  metadata_not_in_change_detection okUpsertOracle [] docA
    { id := "d1", content := "one", metadata := [("lang", "en")] }
    { document_id := "d1", chunks := 1, action := "created", message := "indexed" }
    (by decide) (by decide) (by decide)

/-- C7: after a `delete` of `doc.id` that returned without raising (so the
cache entry was removed after the remote confirmation), an `upsert` of a
document with that id cannot be answered from the local cache: it issues
exactly the one remote request, and when the server (which no longer holds
the document) reports `created`, the outcome's action is `created`. -/
theorem delete_then_upsert_goes_remote
    (oracleD : String → Except RemoteError Unit)
    (oracleU : UpsertRequest → Except RemoteError UpsertResponse)
    (cache : Cache) (doc : Document) (resp : UpsertResponse)
    (hdel : (delete oracleD cache doc.id).res = .ok ())
    (hresp : oracleU (upsertRequest doc) = .ok resp)
    (hact : resp.action = "created") :
    (upsert oracleU (delete oracleD cache doc.id).cache doc).calls = [upsertRequest doc] ∧
    (upsert oracleU (delete oracleD cache doc.id).cache doc).res =
      .ok { document_id := resp.documentId, chunks := resp.chunks,
            action := "created", message := resp.message } := by
  have hcache : (delete oracleD cache doc.id).cache = cache.pop doc.id := by
    cases ho : oracleD doc.id with
    | error e => rw [delete] at hdel; simp [ho] at hdel
    | ok u => simp [delete, ho]
  rw [hcache]
  have hmiss : ¬ ((cache.pop doc.id).get doc.id = some doc.content_hash) := by
    rw [Cache.get_pop_self]
    simp
  constructor
  · simp [upsert, hmiss, hresp]
  · simp [upsert, hmiss, hresp, hact]

/-- Witness for C7: delete `d1` from a cache that knows it, then upsert
`docA`; the call goes to the wire and comes back `created`. -/
theorem delete_then_upsert_goes_remote_witness :
    (upsert okUpsertOracle (delete okDeleteOracle
        [("d1", docA.content_hash)] docA.id).cache docA).calls = [upsertRequest docA] ∧
    (upsert okUpsertOracle (delete okDeleteOracle
        [("d1", docA.content_hash)] docA.id).cache docA).res =
      .ok { document_id := "d1", chunks := 1, action := "created", message := "indexed" } :=
  delete_then_upsert_goes_remote okDeleteOracle okUpsertOracle
    [("d1", docA.content_hash)] docA
    { documentId := "d1", chunks := 1, action := "created", message := "indexed" }
    (by decide) rfl rfl

/-- C1 counterexample: in `upsert_batch` a failure does NOT leave the
subsequent documents attempted — the batch over `[docA, docB, docC]`
against a server that rejects `d2` raises the `d2` error as its sole
outcome (no per-item report), and the issued requests stop at `d2`:
no request for `d3` is ever made. -/
theorem upsert_batch_abort_counterexample :
    (upsert_batch d2FailOracle [] [docA, docB, docC]).res = .error (.status 500 "boom") ∧
    (upsert_batch d2FailOracle [] [docA, docB, docC]).calls.map UpsertRequest.docId =
      ["d1", "d2"] := by
  constructor
  · decide
  · decide

/-- Unfolding `upsert_batch` on the empty batch. -/
theorem upsert_batch_nil (oracle : UpsertRequest → Except RemoteError UpsertResponse)
    (cache : Cache) :
    upsert_batch oracle cache [] = { res := .ok [], cache := cache, calls := [] } := rfl

/-- Unfolding `upsert_batch` on a non-empty batch. -/
theorem upsert_batch_cons (oracle : UpsertRequest → Except RemoteError UpsertResponse)
    (cache : Cache) (d : Document) (ds : List Document) :
    upsert_batch oracle cache (d :: ds) =
      match (upsert oracle cache d).res with
      | .error e => { res := .error e, cache := (upsert oracle cache d).cache,
                      calls := (upsert oracle cache d).calls }
      | .ok r =>
        match (upsert_batch oracle (upsert oracle cache d).cache ds).res with
        | .error e => { res := .error e,
                        cache := (upsert_batch oracle (upsert oracle cache d).cache ds).cache,
                        calls := (upsert oracle cache d).calls ++
                                 (upsert_batch oracle (upsert oracle cache d).cache ds).calls }
        | .ok rs => { res := .ok (r :: rs),
                      cache := (upsert_batch oracle (upsert oracle cache d).cache ds).cache,
                      calls := (upsert oracle cache d).calls ++
                               (upsert_batch oracle (upsert oracle cache d).cache ds).calls } := rfl

/-- C1 as amended: a failing upsert aborts the batch. If the documents
before position `j` all upsert without raising and the document at `j`
fails, `upsert_batch` returns that single error (per-item outcomes are
discarded), the issued requests stop with the failing document (none of
the later documents is attempted), and the cache keeps the updates of the
earlier, successful upserts. -/
theorem upsert_batch_aborts_on_failure
    (oracle : UpsertRequest → Except RemoteError UpsertResponse)
    (cache : Cache) (pre : List Document) (d : Document) (post : List Document)
    (rs : List UpsertResult) (e : RemoteError)
    (hpre : (upsert_batch oracle cache pre).res = .ok rs)
    (hfail : (upsert oracle (upsert_batch oracle cache pre).cache d).res = .error e) :
    upsert_batch oracle cache (pre ++ d :: post) =
      { res := .error e
        cache := (upsert oracle (upsert_batch oracle cache pre).cache d).cache
        calls := (upsert_batch oracle cache pre).calls ++
                 (upsert oracle (upsert_batch oracle cache pre).cache d).calls } := by
  induction pre generalizing cache rs with
  | nil =>
    simp only [upsert_batch_nil] at hfail ⊢
    simp only [List.nil_append]
    rw [upsert_batch_cons, hfail]
  | cons p ps ih =>
    cases hres : (upsert oracle cache p).res with
    | error e' =>
      rw [upsert_batch_cons, hres] at hpre
      simp at hpre
    | ok r =>
      cases hrest : (upsert_batch oracle (upsert oracle cache p).cache ps).res with
      | error e' =>
        rw [upsert_batch_cons, hres, hrest] at hpre
        simp at hpre
      | ok rs' =>
        have hcc : (upsert_batch oracle cache (p :: ps)).cache =
            (upsert_batch oracle (upsert oracle cache p).cache ps).cache := by
          rw [upsert_batch_cons, hres, hrest]
        have hcalls : (upsert_batch oracle cache (p :: ps)).calls =
            (upsert oracle cache p).calls ++
            (upsert_batch oracle (upsert oracle cache p).cache ps).calls := by
          rw [upsert_batch_cons, hres, hrest]
        rw [hcc] at hfail
        have hmain := ih ((upsert oracle cache p).cache) rs' hrest hfail
        rw [List.cons_append, upsert_batch_cons, hres, hmain]
        simp [hcc, hcalls, List.append_assoc]

/-- Witness for the amended C1: the concrete aborted batch
`[docA] ++ docB :: [docC]` with the `d2`-rejecting server. -/
theorem upsert_batch_aborts_on_failure_witness :
    upsert_batch d2FailOracle [] ([docA] ++ docB :: [docC]) =
      { res := .error (.status 500 "boom")
        cache := (upsert d2FailOracle (upsert_batch d2FailOracle [] [docA]).cache docB).cache
        calls := (upsert_batch d2FailOracle [] [docA]).calls ++
                 (upsert d2FailOracle (upsert_batch d2FailOracle [] [docA]).cache docB).calls } :=
  upsert_batch_aborts_on_failure d2FailOracle [] [docA] docB [docC]
    [{ document_id := "d1", chunks := 1, action := "created", message := "indexed" }]
    (.status 500 "boom") (by decide) (by decide)

/-- C9: `query` and `search` test the optional arguments by truthiness,
so `top_k = 0` and `collection = ""` produce exactly the request produced
by omitting the argument, and the omitted argument never contributes a
field. -/
theorem query_search_truthiness (q : String) (tk : Option Int) (c : Option String) :
    queryRequest q (some 0) c = queryRequest q none c ∧
    queryRequest q tk (some "") = queryRequest q tk none ∧
    (queryRequest q none c).topK = none ∧
    (queryRequest q tk none).collection = none ∧
    searchRequest q (some 0) c = searchRequest q none c ∧
    searchRequest q tk (some "") = searchRequest q tk none ∧
    (searchRequest q none c).topK = none ∧
    (searchRequest q tk none).collection = none := by
  refine ⟨?_, ?_, ?_, ?_, ?_, ?_, ?_, ?_⟩ <;>
    simp [queryRequest, searchRequest, pyTruthyInt, pyTruthyStr]

/-- A character absent from a list is replaced nowhere. -/
theorem pyReplaceChar_not_mem (pat : Char) (rep : List Char) (t : List Char)
    (h : pat ∉ t) : pyReplaceChar pat rep t = t := by
  induction t with
  | nil => rfl
  | cons c cs ih =>
    simp only [List.mem_cons, not_or] at h
    simp [pyReplaceChar, Ne.symm h.1, ih h.2]

/-- Replacement distributes over an append whose left part avoids the
pattern. -/
theorem pyReplaceChar_append_left (pat : Char) (rep : List Char) (t u : List Char)
    (h : pat ∉ t) :
    pyReplaceChar pat rep (t ++ u) = t ++ pyReplaceChar pat rep u := by
  induction t with
  | nil => rfl
  | cons c cs ih =>
    simp only [List.mem_cons, not_or] at h
    simp [pyReplaceChar, Ne.symm h.1, ih h.2]

/-- C10: `sync_status` totalizes the optional wire fields: an absent
`pendingDeletes` becomes 0 (a present one is passed through); an absent,
null or empty `lastSyncTime` becomes `None`; a non-empty one is handed to
the datetime parser with the `"Z"` occurrences turned into `"+00:00"`,
which for an ISO-8601 value — where `Z` can occur only as the trailing
UTC designator — replaces exactly that trailing `Z`. -/
theorem sync_status_totalizes (dc cc : Nat) (pd : Option Nat) (ls : Option String) :
    (sync_status_of { lastSyncTime := none, documentCount := dc, chunkCount := cc,
                      pendingDeletes := pd }).last_sync_time = none ∧
    (sync_status_of { lastSyncTime := some "", documentCount := dc, chunkCount := cc,
                      pendingDeletes := pd }).last_sync_time = none ∧
    (sync_status_of { lastSyncTime := ls, documentCount := dc, chunkCount := cc,
                      pendingDeletes := none }).pending_deletes = 0 ∧
    (∀ n : Nat, (sync_status_of { lastSyncTime := ls, documentCount := dc, chunkCount := cc,
                                  pendingDeletes := some n }).pending_deletes = n) ∧
    (∀ s : String, s ≠ "" →
      (sync_status_of { lastSyncTime := some s, documentCount := dc, chunkCount := cc,
                        pendingDeletes := pd }).last_sync_time = some (zToOffset s)) ∧
    (∀ t : List Char, 'Z' ∉ t → zToOffset ⟨t ++ ['Z']⟩ = ⟨t ++ "+00:00".data⟩) ∧
    (∀ t : List Char, 'Z' ∉ t → zToOffset ⟨t⟩ = ⟨t⟩) := by
  refine ⟨rfl, rfl, ?_, ?_, ?_, ?_, ?_⟩
  · simp [sync_status_of]
  · intro n
    simp [sync_status_of]
  · intro s hs
    simp [sync_status_of, hs]
  · intro t ht
    simp [zToOffset, pyReplaceChar_append_left 'Z' _ t _ ht, pyReplaceChar]
  · intro t ht
    simp [zToOffset, pyReplaceChar_not_mem 'Z' _ t ht]

/-- Witness for C10 on concrete payloads: a missing `pendingDeletes`
reads as 0, and `"2024-05-01T12:30:00Z"` parses via the string with the
trailing `Z` turned into a `+00:00` offset. -/
theorem sync_status_totalizes_witness :
    (sync_status_of { lastSyncTime := some "2024-05-01T12:30:00Z", documentCount := 5,
                      chunkCount := 40, pendingDeletes := none }).pending_deletes = 0 ∧
    (sync_status_of { lastSyncTime := some "2024-05-01T12:30:00Z", documentCount := 5,
                      chunkCount := 40, pendingDeletes := none }).last_sync_time =
      some "2024-05-01T12:30:00+00:00" ∧
    (sync_status_of { lastSyncTime := none, documentCount := 5,
                      chunkCount := 40, pendingDeletes := some 3 }).last_sync_time = none := by
  have h := sync_status_totalizes 5 40 none (some "2024-05-01T12:30:00Z")
  refine ⟨h.2.2.1, ?_, (sync_status_totalizes 5 40 (some 3) none).1⟩
  have hmain := h.2.2.2.2.1 "2024-05-01T12:30:00Z" (by decide)
  have hz := h.2.2.2.2.2.1 "2024-05-01T12:30:00".data (by decide)
  have hsplit : ("2024-05-01T12:30:00Z" : String) = ⟨"2024-05-01T12:30:00".data ++ ['Z']⟩ := by
    decide
  rw [hmain, hsplit, hz]
  decide

/-! ## C8: the fingerprint function

The digest is always 64 hex characters, so the fingerprint cannot be
injective on all contents: a pigeonhole argument refutes the literal
"any two contents that differ in a byte have different fingerprints". -/

/-- Unicode scalar values are bounded. -/
theorem char_toNat_lt (c : Char) : c.toNat < 1114112 := by
  rcases c.valid with h | ⟨h1, h2⟩
  · exact Nat.lt_trans h (by norm_num)
  · exact h2

instance : Finite Char :=
  Finite.of_injective (fun c => (⟨c.toNat, char_toNat_lt c⟩ : Fin 1114112))
    (fun a b h => Char.eq_of_val_eq (UInt32.ext (by simpa using congrArg Fin.val h)))

/-- Every digest the fingerprint produces has exactly 64 characters. -/
theorem sha256HexOfString_data_length (s : String) :
    (sha256HexOfString s).data.length = 64 := by
  simp [sha256HexOfString, sha256Hex, wordToHex]

/-- The string of `n` copies of `'a'`. -/
def aStr (n : Nat) : String := ⟨List.replicate n 'a'⟩

/-- Its UTF-8 bytes are `n` copies of byte 97. -/
theorem utf8Encode_aStr (n : Nat) : utf8Encode (aStr n) = List.replicate n 97 := by
  have ha : utf8EncodeChar 'a' = [97] := by decide
  induction n with
  | zero => rfl
  | succ m ih =>
    simp only [utf8Encode, aStr] at ih ⊢
    simp [List.replicate_succ, ha, ih]

/-- The digest of `aStr n`, read as a function on the 64 positions. -/
def digestFn (n : Nat) : Fin 64 → Char := fun i =>
  (sha256HexOfString (aStr n)).data.get
    ⟨i, by rw [sha256HexOfString_data_length]; exact i.isLt⟩

/-- C8 counterexample: the claim "for any two content strings that differ
in at least one byte, their fingerprints differ" is false for the
SHA-256-based `Document.content_hash`: digests are 64 hex characters, so
the fingerprint maps the infinitely many contents `"a"^n` into a finite
set and must collide somewhere (pigeonhole — no explicit collision is
known, but collision-freeness cannot hold universally). -/
theorem content_hash_collision_exists :
    ¬ ∀ d1 d2 : Document, utf8Encode d1.content ≠ utf8Encode d2.content →
        d1.content_hash ≠ d2.content_hash := by
  intro hclaim
  have hinj : Function.Injective digestFn := by
    intro m n hF
    by_contra hmn
    have henc : utf8Encode (aStr m) ≠ utf8Encode (aStr n) := by
      rw [utf8Encode_aStr, utf8Encode_aStr]
      intro h
      exact hmn (by simpa using congrArg List.length h)
    have hneq := hclaim { id := "", content := aStr m } { id := "", content := aStr n } henc
    have hdata : (sha256HexOfString (aStr m)).data = (sha256HexOfString (aStr n)).data := by
      apply List.ext_get (by rw [sha256HexOfString_data_length, sha256HexOfString_data_length])
      intro i h1 h2
      have hi : i < 64 := by rw [sha256HexOfString_data_length] at h1; exact h1
      exact congrFun hF ⟨i, hi⟩
    exact hneq (congrArg String.mk hdata)
  haveI : Finite ℕ := Finite.of_injective digestFn hinj
  exact not_finite ℕ

/-- C8 as amended: the fingerprint is a deterministic function of the
content alone — the SHA-256 lowercase hex digest of the content's UTF-8
bytes, recomputed on each call and independent of id and metadata —
matching the NIST test vectors; distinct contents are guaranteed distinct
fingerprints only up to SHA-256 collisions (which exist by pigeonhole but
none is known), as on the explicit vector pair below. -/
theorem content_hash_deterministic :
    (∀ doc : Document, doc.content_hash = sha256Hex (utf8Encode doc.content)) ∧
    (∀ d1 d2 : Document, d1.content = d2.content → d1.content_hash = d2.content_hash) ∧
    sha256HexOfString "abc" =
      "ba7816bf8f01cfea414140de5dae2223b00361a396177a9cb410ff61f20015ad" ∧
    sha256HexOfString "" =
      "e3b0c44298fc1c149afbf4c8996fb92427ae41e4649b934ca495991b7852b855" ∧
    Document.content_hash { id := "v", content := "abc" } ≠
      Document.content_hash { id := "v", content := "abd" } := by
  refine ⟨fun doc => rfl, ?_, by decide, by decide, by decide⟩
  intro d1 d2 h
  unfold Document.content_hash
  rw [h]

/-- Witness for the amended C8: two documents with equal content but
different ids and metadata have the same fingerprint. -/
theorem content_hash_deterministic_witness :
    Document.content_hash { id := "a", content := "same", metadata := [("k", "1")] } =
      Document.content_hash { id := "b", content := "same" } :=
  content_hash_deterministic.2.1
    { id := "a", content := "same", metadata := [("k", "1")] }
    { id := "b", content := "same" } rfl

end Ragbox
